import Mathlib

/-!
Verification of the vid-api frame transformation pipeline
(`src/vid_core/converter.py`, `src/vid_core/constants.py`,
`src/vid_core/utils.py`) against its natural-language specification.

The Python source is shallowly embedded: frames are lists of rows of
BGR pixel triples, `numpy` uint8 arithmetic becomes exact rational
arithmetic followed by an explicit truncating cast, and the effectful
orchestration loop of `convert_video` becomes a pure recursion that
returns the produced artifact names and the trace of progress-callback
invocations.  Only the gamma lookup table needs real-number
exponentiation and is therefore noncomputable; everything else is
executable.
-/

namespace VidApi

/-! ## Constants (`vid_core/constants.py`) -/

/-- The character ramp of the `normal` style (also the fallback ramp). -/
def NORMAL_SET : String := " .:-=+*#%@"

/-- `ASCII_SETS`: ordered association list of style name to character ramp,
exactly as in `constants.py`. -/
def ASCII_SETS : List (String × String) :=
  [("normal", NORMAL_SET),
   ("inverted", "@%#*+=-:. "),
   ("dots", " ∙·∘○◎●"),
   ("gradient", " ░▒▓█"),
   ("blocks", " ▁▂▃▄▅▆▇█"),
   ("thick", " ███░"),
   ("thin", " ·┉┊─")]

/-- `DEFAULT_CHAR_ASPECT_RATIO = 0.5` (exact in binary floating point,
hence exactly `1/2`). -/
def DEFAULT_CHAR_ASPECT_RATIO : ℚ := 1 / 2

/-- Frame text file extension. -/
def FRAME_TXT_EXT : String := ".txt"

/-- Frame image file extension. -/
def FRAME_PNG_EXT : String := ".png"

/-- Video file extension. -/
def VIDEO_MP4_EXT : String := ".mp4"

/-- The pixel dimensions of the `high` resolution class; also the fallback
used by `ASCIIConverter.__init__` for unknown resolution identifiers. -/
def RESOLUTION_HIGH : Nat × Nat := (1920, 1080)

/-- `ASCIIConverter.RESOLUTIONS`: resolution class to output pixel
dimensions (width, height). -/
def RESOLUTIONS : List (String × Nat × Nat) :=
  [("low", (640, 480)),
   ("medium", (1280, 720)),
   ("high", RESOLUTION_HIGH),
   ("4k", (3840, 2160))]

/-! ## Utilities (`vid_core/utils.py`) -/

/-- Value of one hexadecimal digit, as accepted by Python `int(s, 16)`. -/
def hexDigitValue (c : Char) : Option Nat :=
  if '0' ≤ c ∧ c ≤ '9' then some (c.toNat - 48)
  else if 'a' ≤ c ∧ c ≤ 'f' then some (c.toNat - 97 + 10)
  else if 'A' ≤ c ∧ c ≤ 'F' then some (c.toNat - 65 + 10)
  else none

/-- Python `int(s, 16)` on a short slice: fails on an empty slice or any
non-hexadecimal character, otherwise accumulates base-16 digits. -/
def intBase16 (s : List Char) : Except String Nat :=
  match s.foldl
      (fun acc c => acc.bind fun a => (hexDigitValue c).map fun d => a * 16 + d)
      (some 0) with
  | none => Except.error "invalid literal for int with base 16"
  | some v =>
    if s.isEmpty then Except.error "invalid literal for int with base 16"
    else Except.ok v

/-- `utils.hex_to_rgb`: strips leading number signs, then parses the
two-character slices at offsets 0, 2 and 4.  Python raises `ValueError`
on malformed input (there is no validation or fallback), modelled as
`Except.error`. -/
def hex_to_rgb (hex_color : String) : Except String (Nat × Nat × Nat) := do
  let t := hex_color.data.dropWhile (fun c => c = '#')
  let r ← intBase16 (t.take 2)
  let g ← intBase16 ((t.drop 2).take 2)
  let b ← intBase16 ((t.drop 4).take 2)
  pure (r, g, b)

/-- Base-10 digits of `n` (little-endian), zero-padded to at least six
digits, mirroring the Python format specifier `06d` used for frame
numbers. -/
def pad6Digits (n : Nat) : List Nat :=
  let ds := Nat.digits 10 n
  ds ++ List.replicate (6 - ds.length) 0

/-- Character rendering of the zero-padded frame number (big-endian). -/
def pad6Chars (n : Nat) : List Char :=
  (pad6Digits n).reverse.map Nat.digitChar

/-- `utils.get_frame_filename`: zero-based, six-digit, zero-padded frame
file name. -/
def get_frame_filename (frame_number : Nat) (extension : String) : String :=
  "frame_" ++ String.mk (pad6Chars frame_number) ++ extension

/-- `utils.get_video_filename`. -/
def get_video_filename (extension : String) : String :=
  "ascii_video" ++ extension

/-! ## Configuration (`ConvertConfig`) -/

/-- `ConvertConfig` dataclass of `vid_core/converter.py`, with its default
values.  The float fields brightness, contrast and gamma are embedded as
exact rationals. -/
structure ConvertConfig where
  width : Nat := 120
  style : String := "normal"
  brightness : ℚ := 1
  contrast : ℚ := 1
  gamma : ℚ := 1
  random_colors : Bool := false
  transparent_bg : Bool := false
  bg_color : String := "#000000"
  text_color : String := "#00FF00"
  fps : Int := 30
  crf : Int := 23
  save_txt : Bool := false
  save_png : Bool := true
  save_mp4 : Bool := true
  resolution : String := "high"
deriving DecidableEq

/-! ## Color correction (`apply_color_corrections` and its stages) -/

/-- A decoded video frame: rows of BGR pixel triples (OpenCV channel
order), each channel a byte value. -/
abbrev Frame := List (List (Nat × Nat × Nat))

/-- `cv2.cvtColor(frame, cv2.COLOR_BGR2GRAY)` modelled by OpenCV's
fixed-point luminance formula for 8-bit input:
the weighted sum `0.299 R + 0.587 G + 0.114 B` computed as
`(1868 B + 9617 G + 4899 R + 8192) >> 14`. -/
def grayscale (frame : Frame) : List (List Nat) :=
  frame.map (List.map fun p => (1868 * p.1 + 9617 * p.2.1 + 4899 * p.2.2 + 8192) / 16384)

/-- `np.clip(x, 0, 255)`. -/
def clip255 (x : ℚ) : ℚ := min (max x 0) 255

/-- `.astype(np.uint8)` on a float value: truncation toward zero followed
by a wrap to the byte range (all uses in this file are on values already
clipped to `[0, 255]`, where this is plain truncation). -/
def uint8OfRat (x : ℚ) : Nat := (⌊x⌋ % 256).toNat

/-- `ASCIIConverter.brightness_correction`: identity fast path when the
factor is 1.0, otherwise multiply, clip to `[0, 255]` and cast to uint8. -/
def brightness_correction (config : ConvertConfig) (img : List (List Nat)) :
    List (List Nat) :=
  if config.brightness = 1 then img
  else img.map (List.map fun v : Nat => uint8OfRat (clip255 ((v : ℚ) * config.brightness)))

/-- `img.mean()`: the exact arithmetic mean of all samples (an empty
image, on which numpy would produce NaN, is mapped to 0; no claim
touches that case). -/
def npMean (img : List (List Nat)) : ℚ :=
  ((img.map fun row => ((row.map fun v => (v : ℚ)).sum)).sum) /
    (((img.map List.length).sum : Nat) : ℚ)

/-- `ASCIIConverter.contrast_correction`: identity fast path when the
factor is 1.0, otherwise scale each sample's deviation from the image
mean, clip to `[0, 255]` and cast to uint8. -/
def contrast_correction (config : ConvertConfig) (img : List (List Nat)) :
    List (List Nat) :=
  if config.contrast = 1 then img
  else
    img.map (List.map fun v : Nat =>
      uint8OfRat (clip255 (((v : ℚ) - npMean img) * config.contrast + npMean img)))

/-- `.astype(np.uint8)` on a real value (used for the gamma table). -/
noncomputable def uint8OfReal (x : ℝ) : Nat := (⌊x⌋ % 256).toNat

/-- The 256-entry lookup table built by `ASCIIConverter.gamma_correction`:
entry `i` is `((i / 255.0) ** inv_gamma) * 255` cast to uint8, with
`inv_gamma = 1.0 / gamma`. -/
noncomputable def gamma_table (gamma : ℚ) : List Nat :=
  (List.range 256).map fun i : Nat =>
    uint8OfReal ((((i : ℝ) / 255) ^ ((1 : ℝ) / (gamma : ℚ))) * 255)

/-- `ASCIIConverter.gamma_correction`: identity fast path when the factor
is 1.0, otherwise `cv2.LUT` through the precomputed 256-entry table. -/
noncomputable def gamma_correction (config : ConvertConfig) (img : List (List Nat)) :
    List (List Nat) :=
  if config.gamma = 1 then img
  else img.map (List.map fun v => (gamma_table config.gamma).getD v 0)

/-- `ASCIIConverter.apply_color_corrections`: grayscale conversion followed
by brightness, then contrast, then gamma correction, in that order. -/
noncomputable def apply_color_corrections (config : ConvertConfig) (frame : Frame) :
    List (List Nat) :=
  gamma_correction config (contrast_correction config (brightness_correction config (grayscale frame)))

/-! ## Converter construction (`ASCIIConverter.__init__`) -/

/-- `ASCII_SETS.get(style, ASCII_SETS["normal"])`: ramp lookup with
fallback to the `normal` ramp for unknown style identifiers. -/
def ascii_set_for (style : String) : String :=
  ( ASCII_SETS.lookup style).getD NORMAL_SET

/-- `ASCIIConverter.calculate_height`: `int(width * DEFAULT_CHAR_ASPECT_RATIO)`
(float truncation toward zero; the product is nonnegative, so a floor). -/
def calculate_height (width : Nat) : Nat :=
  (⌊(width : ℚ) * DEFAULT_CHAR_ASPECT_RATIO⌋).toNat

/-- The state an `ASCIIConverter` instance carries after `__init__`. -/
structure ASCIIConverter where
  output_dir : String
  config : ConvertConfig
  ascii_set : String
  bg_color_rgb : Nat × Nat × Nat
  text_color_rgb : Nat × Nat × Nat
  height : Nat
  out_width : Nat
  out_height : Nat
deriving DecidableEq

/-- `ASCIIConverter.__init__`: resolves the character ramp (falling back
to `normal`), parses both colors through `hex_to_rgb` (which raises on
malformed strings — modelled by the `Except` error propagating), derives
the character-grid height from the width, and resolves the output
resolution (falling back to `high` with a logged warning for unknown
identifiers). -/
def converter_init (output_dir : String) (config : ConvertConfig) :
    Except String ASCIIConverter :=
  match hex_to_rgb config.bg_color with
  | Except.error e => Except.error e
  | Except.ok bg =>
    match hex_to_rgb config.text_color with
    | Except.error e => Except.error e
    | Except.ok tc =>
      let wh :=
        match RESOLUTIONS.lookup config.resolution with
        | none => RESOLUTION_HIGH
        | some wh => wh
      Except.ok
        { output_dir := output_dir
          config := config
          ascii_set := ascii_set_for config.style
          bg_color_rgb := bg
          text_color_rgb := tc
          height := calculate_height config.width
          out_width := wh.1
          out_height := wh.2 }

/-! ## Glyph mapper (`frame_to_ascii`) -/

/-- The per-sample glyph index of `frame_to_ascii`:
`int(pixel * (len(ascii_set) - 1))` — truncation toward zero of the
product, which is a floor since the normalized pixel is nonnegative. -/
def luminance_index (ascii_set : String) (pixel : ℚ) : Nat :=
  (⌊pixel * ((ascii_set.length - 1 : Nat) : ℚ)⌋).toNat

/-- `cv2.resize(gray, (w, h))` modelled as a deterministic resampler:
the output always has exactly `h` rows of exactly `w` samples, each
sample taken from the source grid (nearest-index sampling).  The claims
rely only on the output dimensions and on each sample being mapped
through the glyph index function. -/
def resizeGrid (grid : List (List Nat)) (w h : Nat) : List (List Nat) :=
  (List.range h).map fun i =>
    (List.range w).map fun j =>
      (grid.getD (i * grid.length / h) []).getD (j * (grid.getD 0 []).length / w) 0

/-- The `lines` list built by `frame_to_ascii`: the corrected luminance
grid is resized to `width × height`, each sample normalized to `[0, 1]`
by dividing by 255, mapped to a ramp glyph, and each row's glyphs are
concatenated into one line. -/
noncomputable def asciiLines (conv : ASCIIConverter) (frame : Frame) : List String :=
  let gray := apply_color_corrections conv.config frame
  let resized := resizeGrid gray conv.config.width conv.height
  resized.map fun row =>
    String.mk (row.map fun pixel : Nat =>
      conv.ascii_set.data.getD (luminance_index conv.ascii_set ((pixel : ℚ) / 255)) ' ')

/-- Python `"\n".join(lines)`: lines joined by a single separator with no
trailing separator after the last line. -/
def join_lines : List String → String
  | [] => ""
  | [line] => line
  | line :: rest => line ++ "\n" ++ join_lines rest

/-- `ASCIIConverter.frame_to_ascii`. -/
noncomputable def frame_to_ascii (conv : ASCIIConverter) (frame : Frame) : String :=
  join_lines (asciiLines conv frame)

/-! ## Frame renderer (`render_frame_png`) -/

/-- The persisted PNG artifact of one frame: its path and final pixel
dimensions. -/
structure RenderedPng where
  path : String
  width : Nat
  height : Nat
deriving DecidableEq

/-- `ASCIIConverter.render_frame_png`, restricted to what it persists:
the canvas is `out_width × out_height`; if the height is odd it is
bumped up by one pixel with a minimal resize before saving (h264 needs
an even height), and the image is saved under the zero-padded frame
file name.  The font-size search and the glyph drawing only affect pixel
contents, not the persisted dimensions or path, and are not modelled. -/
def render_frame_png (conv : ASCIIConverter) ( _ascii_text : String)
    (frame_number : Nat) : RenderedPng :=
  let img_width := conv.out_width
  let img_height := conv.out_height
  let final_height := if img_height % 2 ≠ 0 then img_height + 1 else img_height
  { path := conv.output_dir ++ "/" ++ get_frame_filename frame_number FRAME_PNG_EXT
    width := img_width
    height := final_height }

/-- `ASCIIConverter.save_frame_txt`: persists the ASCII text under the
zero-padded frame file name and returns the path. -/
def save_frame_txt (conv : ASCIIConverter) ( _ascii_text : String)
    (frame_number : Nat) : String :=
  conv.output_dir ++ "/" ++ get_frame_filename frame_number FRAME_TXT_EXT

/-! ## Video assembler (`create_video_from_pngs`) -/

/-- `ASCIIConverter.create_video_from_pngs`: invokes ffmpeg on the
`frame_%06d.png` sequence.  The external process is modelled by its exit
code: on nonzero exit the function logs the diagnostics and returns
`None` (no exception), on zero exit it returns the output path. -/
def create_video_from_pngs (conv : ASCIIConverter) (encoder_returncode : Int) :
    Option String :=
  if encoder_returncode ≠ 0 then none
  else some (conv.output_dir ++ "/" ++ get_video_filename VIDEO_MP4_EXT)

/-! ## Conversion pipeline (`convert_video`) -/

/-- Everything the per-frame loop of `convert_video` accumulates: the
persisted artifact paths, the trace of progress-callback invocations
(in call order, each with the exact argument tuple
`(progress, frame_number, total_frames)`), and the final frame counter. -/
structure LoopOut where
  txt_files : List String
  png_files : List String
  calls : List (ℚ × Nat × Int)
  frame_number : Nat
deriving DecidableEq

/-- The progress fraction passed to the callback after processing frame
number `k` (1-based): `frame_number / max(total_frames, 1)`. -/
def progress_of (total_frames : Int) (k : Nat) : ℚ :=
  (k : ℚ) / ((max total_frames 1 : Int) : ℚ)

/-- The decode loop of `convert_video`: while `frame_number < total_frames`,
read (stopping silently when the decoder has no more frames), convert the
frame, persist the requested artifacts, increment the counter and invoke
the progress callback. -/
noncomputable def convertLoop (conv : ASCIIConverter) (total_frames : Int) :
    List Frame → Nat → LoopOut
  | [], frame_number => ⟨[], [], [], frame_number⟩
  | frame :: rest, frame_number =>
    if (frame_number : Int) < total_frames then
      let ascii_text := frame_to_ascii conv frame
      let txts := if conv.config.save_txt then [save_frame_txt conv ascii_text frame_number] else []
      let pngs := if conv.config.save_png then [(render_frame_png conv ascii_text frame_number).path] else []
      let r := convertLoop conv total_frames rest (frame_number + 1)
      ⟨txts ++ r.txt_files, pngs ++ r.png_files,
       (progress_of total_frames (frame_number + 1), frame_number + 1, total_frames) :: r.calls,
       r.frame_number⟩
    else ⟨[], [], [], frame_number⟩

/-- The result dictionary returned by `convert_video`, plus the
progress-callback trace. -/
structure ConvertResult where
  frames_count : Nat
  fps : Int
  png_files : List String
  txt_files : List String
  mp4_file : Option String
  png_files_count : Nat
  txt_files_count : Nat
  calls : List (ℚ × Nat × Int)
deriving DecidableEq

/-- `ASCIIConverter.convert_video`.  The interactions with the outside
world are explicit parameters: `opened` is whether `cv2.VideoCapture`
could open the source, `total_frames` is the container's reported frame
count, `frames` is the finite sequence of frames the decoder actually
yields, and `encoder_returncode` is the exit code of the ffmpeg
invocation (used only when video assembly runs).  If the source cannot
be opened a `ValueError` is raised — modelled as `Except.error` — before
any frame is processed or artifact written. -/
noncomputable def convert_video (conv : ASCIIConverter) (video_path : String)
    (opened : Bool) (total_frames : Int) (frames : List Frame)
    (encoder_returncode : Int) : Except String ConvertResult :=
  if opened then
    let out := convertLoop conv total_frames frames 0
    let mp4_file :=
      if conv.config.save_mp4 && !out.png_files.isEmpty then
        create_video_from_pngs conv encoder_returncode
      else none
    Except.ok
      { frames_count := out.frame_number
        fps := conv.config.fps
        png_files := out.png_files
        txt_files := out.txt_files
        mp4_file := mp4_file
        png_files_count := out.png_files.length
        txt_files_count := out.txt_files.length
        calls := out.calls }
  else Except.error ("Failed to open video: " ++ video_path)

/-! ## Helper lemmas -/

theorem ascii_set_for_ne_empty (style : String) : ascii_set_for style ≠ "" := by
  unfold ascii_set_for ASCII_SETS NORMAL_SET
  simp only [List.lookup]
  repeat' split
  all_goals decide

theorem luminance_index_le (ascii_set : String) (s : ℚ) (hs1 : s ≤ 1) :
    luminance_index ascii_set s ≤ ascii_set.length - 1 := by
  unfold luminance_index
  have hc : (0 : ℚ) ≤ ((ascii_set.length - 1 : Nat) : ℚ) := by positivity
  have h1 : s * ((ascii_set.length - 1 : Nat) : ℚ) ≤ ((ascii_set.length - 1 : Nat) : ℚ) :=
    mul_le_of_le_one_left hc hs1
  have h2 : ⌊s * ((ascii_set.length - 1 : Nat) : ℚ)⌋ ≤ ((ascii_set.length - 1 : Nat) : ℤ) := by
    have := Int.floor_le_floor h1
    rwa [Int.floor_natCast] at this
  omega

theorem luminance_index_mono (ascii_set : String) (s t : ℚ) (hst : s ≤ t) :
    luminance_index ascii_set s ≤ luminance_index ascii_set t := by
  unfold luminance_index
  have hc : (0 : ℚ) ≤ ((ascii_set.length - 1 : Nat) : ℚ) := by positivity
  have h1 : s * ((ascii_set.length - 1 : Nat) : ℚ) ≤ t * ((ascii_set.length - 1 : Nat) : ℚ) :=
    mul_le_mul_of_nonneg_right hst hc
  have h2 := Int.floor_le_floor h1
  omega

theorem ite_singleton_append {α : Type} {c : Prop} [Decidable c] (x : α) (L : List α) :
    (if c then [x] else []) ++ (if c then L else []) = if c then x :: L else [] := by
  split <;> simp

/-- Closed form of the decode loop: starting at frame counter `n`, it
processes `min frames.length (total_frames - n).toNat` frames, producing
consecutively numbered artifact paths and one progress call per frame. -/
theorem convertLoop_eq (conv : ASCIIConverter) (total_frames : Int)
    (frames : List Frame) (n : Nat) :
    convertLoop conv total_frames frames n =
      ⟨if conv.config.save_txt then
          (List.range' n (min frames.length (total_frames - (n : Int)).toNat)).map
            (fun i => conv.output_dir ++ "/" ++ get_frame_filename i FRAME_TXT_EXT)
        else [],
       if conv.config.save_png then
          (List.range' n (min frames.length (total_frames - (n : Int)).toNat)).map
            (fun i => conv.output_dir ++ "/" ++ get_frame_filename i FRAME_PNG_EXT)
        else [],
       (List.range' (n + 1) (min frames.length (total_frames - (n : Int)).toNat)).map
         (fun k => (progress_of total_frames k, k, total_frames)),
       n + min frames.length (total_frames - (n : Int)).toNat⟩ := by
  induction frames generalizing n with
  | nil => simp [convertLoop]
  | cons f rest ih =>
    by_cases h : (n : Int) < total_frames
    · have hmin : min (rest.length + 1) ((total_frames - (n : Int)).toNat)
          = min rest.length ((total_frames - ((n : Int) + 1)).toNat) + 1 := by omega
      simp only [convertLoop, if_pos h, ih (n + 1), List.length_cons, Nat.cast_add,
        Nat.cast_one, hmin, List.range'_succ, List.map_cons, ite_singleton_append]
      refine congrArg (fun z => LoopOut.mk _ _ _ z) ?_
      omega
    · have hmin : min (rest.length + 1) ((total_frames - (n : Int)).toNat) = 0 := by omega
      simp [convertLoop, if_neg h, hmin]
      exact ⟨fun _ => by omega, fun _ => by omega, by omega⟩

/-- Claim C9: if the source cannot be opened, `convert_video` raises
before processing any frame or writing any artifact (the run is a bare
error); otherwise the decode loop processes exactly
`min frames.length total.toNat` frames — at most the reported total,
stopping early without error when the decoder runs dry. -/
theorem claim_C9_open_failure (conv : ASCIIConverter) (video_path : String)
    (total_frames : Int) (frames : List Frame) (rc : Int) :
    (convert_video conv video_path false total_frames frames rc =
      Except.error ("Failed to open video: " ++ video_path)) ∧
    ((convert_video conv video_path true total_frames frames rc).toOption.map
        (fun r => r.frames_count) =
      some (min frames.length total_frames.toNat)) ∧
    (∀ r ∈ (convert_video conv video_path true total_frames frames rc).toOption,
      r.frames_count ≤ total_frames.toNat) := by
  refine ⟨rfl, ?_, ?_⟩
  · simp [convert_video, convertLoop_eq, Except.toOption]
  · intro r hr
    simp only [convert_video, if_pos, Except.toOption, Option.mem_def, Option.some.injEq] at hr
    subst hr
    simp only [convertLoop_eq]
    simp

/-- Concrete instantiation of C9: an unopenable source yields the error
immediately; with an empty decoded stream the loop stops early with zero
frames. -/
theorem claim_C9_witness :
    (convert_video ⟨"o", {}, NORMAL_SET, (0, 0, 0), (0, 255, 0), 5, 1920, 1080⟩
        "v.mp4" false 3 [] 0 =
      Except.error ("Failed to open video: " ++ "v.mp4")) ∧
    ((convert_video ⟨"o", {}, NORMAL_SET, (0, 0, 0), (0, 255, 0), 5, 1920, 1080⟩
        "v.mp4" true 3 [] 0).toOption.map (fun r => r.frames_count) =
      some (min ([] : List Frame).length (3 : Int).toNat)) :=
  ⟨(claim_C9_open_failure _ "v.mp4" 3 [] 0).1,
   (claim_C9_open_failure _ "v.mp4" 3 [] 0).2.1⟩

/-- Claim C5: on nonzero encoder exit, `create_video_from_pngs` returns
no artifact (`none`) rather than raising, and `convert_video` still
returns a result reporting the full count of processed frames with
`mp4_file = None`. -/
theorem claim_C5_encoder_failure (conv : ASCIIConverter) (video_path : String)
    (total_frames : Int) (frames : List Frame) (rc : Int) (hrc : rc ≠ 0) :
    create_video_from_pngs conv rc = none ∧
    ((convert_video conv video_path true total_frames frames rc).toOption.map
        (fun r => (r.frames_count, r.mp4_file)) =
      some (min frames.length total_frames.toNat, none)) := by
  constructor
  · simp [create_video_from_pngs, hrc]
  · simp [convert_video, Except.toOption, convertLoop_eq, create_video_from_pngs, hrc]

/-- Concrete instantiation of C5: encoder exit code 1, two decoded frames
against a reported total of 2 — the run reports both frames and no video
artifact. -/
theorem claim_C5_witness :
    create_video_from_pngs ⟨"o", {}, NORMAL_SET, (0, 0, 0), (0, 255, 0), 5, 1920, 1080⟩ 1 =
      none ∧
    ((convert_video ⟨"o", {}, NORMAL_SET, (0, 0, 0), (0, 255, 0), 5, 1920, 1080⟩
        "v.mp4" true 2 [[[(0, 0, 0)]], [[(9, 9, 9)]]] 1).toOption.map
        (fun r => (r.frames_count, r.mp4_file)) =
      some (min [[[(0, 0, 0)]], [[(9, 9, 9)]]].length (2 : Int).toNat, none)) :=
  claim_C5_encoder_failure _ "v.mp4" 2 [[[(0, 0, 0)]], [[(9, 9, 9)]]] 1 (by norm_num)

theorem ofDigits_replicate_zero (b k : Nat) :
    Nat.ofDigits b (List.replicate k 0) = 0 := by
  induction k with
  | zero => simp
  | succ k ih => simp [List.replicate_succ, Nat.ofDigits_cons, ih]

theorem ofDigits_pad6 (n : Nat) : Nat.ofDigits 10 (pad6Digits n) = n := by
  unfold pad6Digits
  rw [Nat.ofDigits_append, Nat.ofDigits_digits, ofDigits_replicate_zero]
  simp

theorem pad6Digits_lt (n : Nat) : ∀ d ∈ pad6Digits n, d < 10 := by
  intro d hd
  unfold pad6Digits at hd
  rcases List.mem_append.mp hd with h | h
  · exact Nat.digits_lt_base (by norm_num) h
  · rw [List.eq_of_mem_replicate h]; norm_num

theorem digitChar_injOn : ∀ a < 10, ∀ b < 10, Nat.digitChar a = Nat.digitChar b → a = b := by
  decide

theorem map_digitChar_inj : ∀ l1 l2 : List Nat, (∀ x ∈ l1, x < 10) → (∀ x ∈ l2, x < 10) →
    l1.map Nat.digitChar = l2.map Nat.digitChar → l1 = l2 := by
  intro l1
  induction l1 with
  | nil =>
    intro l2 _ _ h
    cases l2 with
    | nil => rfl
    | cons b t2 => simp at h
  | cons a t ih =>
    intro l2 h1 h2 h
    cases l2 with
    | nil => simp at h
    | cons b t2 =>
      simp only [List.map_cons, List.cons.injEq] at h
      have ha := h1 a (List.mem_cons_self a t)
      have hb := h2 b (List.mem_cons_self b t2)
      rw [digitChar_injOn a ha b hb h.1,
        ih t2 (fun x hx => h1 x (List.mem_cons_of_mem a hx))
          (fun x hx => h2 x (List.mem_cons_of_mem b hx)) h.2]

theorem pad6Chars_inj : Function.Injective pad6Chars := by
  intro n m h
  unfold pad6Chars at h
  have h2 : (pad6Digits n).reverse = (pad6Digits m).reverse :=
    map_digitChar_inj _ _
      (fun x hx => pad6Digits_lt n x (List.mem_reverse.mp hx))
      (fun x hx => pad6Digits_lt m x (List.mem_reverse.mp hx)) h
  have h3 : pad6Digits n = pad6Digits m := List.reverse_injective h2
  have h4 := congrArg (Nat.ofDigits 10) h3
  rwa [ofDigits_pad6, ofDigits_pad6] at h4

theorem get_frame_filename_inj (ext : String) :
    Function.Injective (fun n => get_frame_filename n ext) := by
  intro n m h
  simp only [get_frame_filename] at h
  have hd := congrArg String.data h
  simp only [String.data_append] at hd
  have hd2 : pad6Chars n = pad6Chars m :=
    List.append_cancel_left (List.append_cancel_right hd)
  exact pad6Chars_inj hd2

theorem frame_path_inj (dir ext : String) :
    Function.Injective (fun i => dir ++ "/" ++ get_frame_filename i ext) := by
  intro n m h
  have hd := congrArg String.data h
  simp only [String.data_append] at hd
  have hd2 : (get_frame_filename n ext).data = (get_frame_filename m ext).data :=
    List.append_cancel_left hd
  exact get_frame_filename_inj ext (String.ext hd2)

/-- Claim C7: with PNG output enabled, the PNG artifacts written by a run
are exactly the zero-based, six-digit, zero-padded
`frame_000000.png … frame_{N-1}.png` for the `N` processed frames,
assigned consecutively with no gaps and no duplicates. -/
theorem claim_C7_png_contiguity (conv : ASCIIConverter) (video_path : String)
    (total_frames : Int) (frames : List Frame) (rc : Int)
    (hpng : conv.config.save_png = true) :
    ((convert_video conv video_path true total_frames frames rc).toOption.map
        (fun r => (r.frames_count, r.png_files)) =
      some (min frames.length total_frames.toNat,
        (List.range (min frames.length total_frames.toNat)).map
          (fun i => conv.output_dir ++ "/" ++ get_frame_filename i FRAME_PNG_EXT))) ∧
    (∀ r ∈ (convert_video conv video_path true total_frames frames rc).toOption,
      r.png_files.Nodup) := by
  constructor
  · simp [convert_video, Except.toOption, convertLoop_eq, hpng, List.range_eq_range']
  · intro r hr
    simp only [convert_video, if_pos, Except.toOption, Option.mem_def, Option.some.injEq] at hr
    subst hr
    simp [convertLoop_eq, hpng]
    exact List.Nodup.map (frame_path_inj conv.output_dir FRAME_PNG_EXT)
      (List.nodup_range' 0 (min frames.length total_frames.toNat))

/-- Concrete instantiation of C7: one decoded frame against a reported
total of 2 yields exactly the artifact list for frame index 0. -/
theorem claim_C7_witness :
    ((convert_video ⟨"o", { save_png := true }, NORMAL_SET, (0, 0, 0), (0, 255, 0), 5, 1920, 1080⟩
        "v.mp4" true 2 [[[(0, 0, 0)]]] 0).toOption.map
        (fun r => (r.frames_count, r.png_files)) =
      some (min [[[(0, 0, 0)]]].length (2 : Int).toNat,
        (List.range (min [[[(0, 0, 0)]]].length (2 : Int).toNat)).map
          (fun i => "o" ++ "/" ++ get_frame_filename i FRAME_PNG_EXT))) :=
  (claim_C7_png_contiguity _ "v.mp4" 2 [[[(0, 0, 0)]]] 0 rfl).1

theorem progress_of_nonneg (total_frames : Int) (k : Nat) :
    0 ≤ progress_of total_frames k := by
  unfold progress_of
  apply div_nonneg (by positivity)
  exact_mod_cast (by omega : (0 : ℤ) ≤ max total_frames 1)

theorem progress_of_mono (total_frames : Int) {a b : Nat} (h : a ≤ b) :
    progress_of total_frames a ≤ progress_of total_frames b := by
  unfold progress_of
  have hM : (0 : ℚ) ≤ ((max total_frames 1 : Int) : ℚ) :=
    by exact_mod_cast (by omega : (0 : ℤ) ≤ max total_frames 1)
  exact div_le_div_of_nonneg_right (by exact_mod_cast h) hM

theorem progress_of_le_one (total_frames : Int) (k : Nat)
    (hk : (k : Int) ≤ max total_frames 1) : progress_of total_frames k ≤ 1 := by
  unfold progress_of
  have hM : (0 : ℚ) < ((max total_frames 1 : Int) : ℚ) :=
    by exact_mod_cast (by omega : (0 : ℤ) < max total_frames 1)
  rw [div_le_one hM]
  exact_mod_cast hk

theorem progress_of_last (total_frames : Int) (h1 : 1 ≤ total_frames) :
    progress_of total_frames total_frames.toNat = 1 := by
  unfold progress_of
  rw [max_eq_left h1]
  have hcast : ((total_frames.toNat : ℕ) : ℚ) = ((total_frames : ℤ) : ℚ) := by
    exact_mod_cast congrArg (fun z : ℤ => (z : ℚ)) (Int.toNat_of_nonneg (by omega))
  rw [hcast]
  exact div_self (by exact_mod_cast (by omega : total_frames ≠ 0))

/-- Claim C6 (amended): the progress fractions passed to the callback form
a non-decreasing sequence of values in `[0, 1]`, the callback is invoked
once per processed frame with the argument order
`(progress_fraction, frames_processed, frames_total)`, and the final
fraction equals 1.0 provided the decoder yields at least the reported
total number of frames and that total is at least 1. -/
theorem claim_C6_progress_amended (conv : ASCIIConverter) (video_path : String)
    (total_frames : Int) (frames : List Frame) (rc : Int) :
    ((convert_video conv video_path true total_frames frames rc).toOption.map
        (fun r => r.calls) =
      some ((List.range' 1 (min frames.length total_frames.toNat)).map
        (fun k => (progress_of total_frames k, k, total_frames)))) ∧
    (∀ r ∈ (convert_video conv video_path true total_frames frames rc).toOption,
      List.Chain' (fun a b => a.1 ≤ b.1) r.calls) ∧
    (∀ r ∈ (convert_video conv video_path true total_frames frames rc).toOption,
      ∀ c ∈ r.calls, 0 ≤ c.1 ∧ c.1 ≤ 1) ∧
    (1 ≤ total_frames → total_frames.toNat ≤ frames.length →
      ∀ r ∈ (convert_video conv video_path true total_frames frames rc).toOption,
        r.calls.getLast?.map (fun c => c.1) = some 1) := by
  have hcalls : ∀ r ∈ (convert_video conv video_path true total_frames frames rc).toOption,
      r.calls = (List.range' 1 (min frames.length total_frames.toNat)).map
        (fun k => (progress_of total_frames k, k, total_frames)) := by
    intro r hr
    simp only [convert_video, if_pos, Except.toOption, Option.mem_def, Option.some.injEq] at hr
    subst hr
    simp [convertLoop_eq]
  refine ⟨?_, ?_, ?_, ?_⟩
  · simp [convert_video, Except.toOption, convertLoop_eq]
  · intro r hr
    rw [hcalls r hr]
    refine (List.chain'_map _).mpr ?_
    exact List.Pairwise.chain'
      ((List.pairwise_lt_range' 1 _).imp
        (fun hab => progress_of_mono total_frames (le_of_lt hab)))
  · intro r hr c hc
    rw [hcalls r hr] at hc
    obtain ⟨k, hkmem, rfl⟩ := List.mem_map.mp hc
    obtain ⟨i, hi, rfl⟩ := List.mem_range'.mp hkmem
    refine ⟨progress_of_nonneg _ _, ?_⟩
    apply progress_of_le_one
    have h1 : i < min frames.length total_frames.toNat := hi
    omega
  · intro h1 hlen r hr
    rw [hcalls r hr]
    have hmin : min frames.length total_frames.toNat = total_frames.toNat :=
      by omega
    rw [hmin]
    have hN : total_frames.toNat = (total_frames.toNat - 1) + 1 := by omega
    rw [hN, List.range'_concat, List.map_append]
    simp only [List.map_cons, List.map_nil]
    rw [List.getLast?_concat]
    have harg : 1 + 1 * (total_frames.toNat - 1) = total_frames.toNat := by omega
    simp only [harg, Option.map_some]
    rw [progress_of_last total_frames h1]
    simp

/-- Concrete instantiation of C6 (amended): one decoded frame against a
reported total of 1 produces exactly one call, `(1/1, 1, 1)`. -/
theorem claim_C6_witness :
    ((convert_video ⟨"o", { save_png := false, save_mp4 := false }, NORMAL_SET,
          (0, 0, 0), (0, 255, 0), 5, 1920, 1080⟩
        "v.mp4" true 1 [[[(0, 0, 0)]]] 0).toOption.map (fun r => r.calls) =
      some ((List.range' 1 (min [[[(0, 0, 0)]]].length (1 : Int).toNat)).map
        (fun k => (progress_of 1 k, k, (1 : Int))))) :=
  (claim_C6_progress_amended _ "v.mp4" 1 [[[(0, 0, 0)]]] 0).1

/-- Counterexample to C6 as stated: a run whose decoder yields only one
frame while the container reported two.  The callback trace is the single
call `(1/2, 1, 2)`, so the final fraction passed is `1/2`, not 1.0. -/
theorem claim_C6_counterexample :
    ((convert_video ⟨"o", { save_png := false, save_mp4 := false }, NORMAL_SET,
          (0, 0, 0), (0, 255, 0), 5, 1920, 1080⟩
        "v.mp4" true 2 [[[(0, 0, 0)]]] 0).toOption.map (fun r => r.calls) =
      some [((1 : ℚ) / 2, 1, (2 : ℤ))]) ∧
    ¬ ((1 : ℚ) / 2 = 1) := by
  constructor
  · norm_num [convert_video, Except.toOption, convertLoop_eq, progress_of]
  · norm_num

theorem join_lines_cons_cons (l l2 : String) (t : List String) :
    join_lines (l :: l2 :: t) = l ++ "\n" ++ join_lines (l2 :: t) := rfl

theorem join_lines_length (lines : List String) (h : lines ≠ []) :
    (join_lines lines).length = (lines.map String.length).sum + (lines.length - 1) := by
  induction lines with
  | nil => contradiction
  | cons l rest ih =>
    cases rest with
    | nil => simp [join_lines]
    | cons l2 t =>
      rw [join_lines_cons_cons, String.length_append, String.length_append,
        ih (by simp)]
      simp only [List.map_cons, List.sum_cons, List.length_cons]
      have hnl : ("\n" : String).length = 1 := rfl
      omega

theorem one_le_calculate_height {w : Nat} (hw : 10 ≤ w) : 1 ≤ calculate_height w := by
  unfold calculate_height DEFAULT_CHAR_ASPECT_RATIO
  have h1 : (1 : ℚ) ≤ (w : ℚ) * (1 / 2) := by
    have : (10 : ℚ) ≤ (w : ℚ) := by exact_mod_cast hw
    linarith
  have h2 : (1 : ℤ) ≤ ⌊(w : ℚ) * (1 / 2)⌋ := Int.le_floor.mpr (by exact_mod_cast h1)
  omega

/-- Claim C2: for a converter whose grid height carries the `__init__`
invariant (height = `int(width * 0.5)`, which `converter_init` always
establishes) and any width in `[10, 240]`, the text produced by
`frame_to_ascii` consists of exactly `int(width * 0.5)` rows of exactly
`width` glyphs each, joined by a single separator with no trailing
separator — witnessed by the total character count
`rows * width + (rows - 1)`. -/
theorem claim_C2_grid_shape (conv : ASCIIConverter) (frame : Frame)
    (hh : conv.height = calculate_height conv.config.width)
    (h10 : 10 ≤ conv.config.width) (h240 : conv.config.width ≤ 240) :
    (∀ dir cfg c, converter_init dir cfg = Except.ok c →
      c.config = cfg ∧ c.height = calculate_height cfg.width) ∧
    (asciiLines conv frame).length = calculate_height conv.config.width ∧
    (∀ line ∈ asciiLines conv frame, line.length = conv.config.width) ∧
    frame_to_ascii conv frame = join_lines (asciiLines conv frame) ∧
    (frame_to_ascii conv frame).length =
      calculate_height conv.config.width * conv.config.width +
        (calculate_height conv.config.width - 1) := by
  have hlen : (asciiLines conv frame).length = calculate_height conv.config.width := by
    simp [asciiLines, resizeGrid, hh]
  have hline : ∀ line ∈ asciiLines conv frame, line.length = conv.config.width := by
    intro line hl
    simp only [asciiLines, resizeGrid, List.mem_map] at hl
    obtain ⟨row, hrow, rfl⟩ := hl
    obtain ⟨i, hi, hrowe⟩ := hrow
    subst hrowe
    simp only [String.length_mk, List.length_map, List.length_range]
  refine ⟨?_, hlen, hline, rfl, ?_⟩
  · intro dir cfg c hc
    unfold converter_init at hc
    rcases hbg : hex_to_rgb cfg.bg_color with e | bg <;> rw [hbg] at hc
    · exact absurd hc (by simp)
    rcases htc : hex_to_rgb cfg.text_color with e | tc <;> rw [htc] at hc
    · exact absurd hc (by simp)
    simp only [Except.ok.injEq] at hc
    subst hc
    exact ⟨rfl, rfl⟩
  · have hne : asciiLines conv frame ≠ [] := by
      intro hempty
      rw [hempty] at hlen
      have := one_le_calculate_height h10
      simp at hlen
      omega
    rw [frame_to_ascii, join_lines_length _ hne]
    rw [List.sum_eq_card_nsmul (m := conv.config.width) _ (by
      intro x hx
      obtain ⟨line, hlmem, rfl⟩ := List.mem_map.mp hx
      exact hline line hlmem)]
    simp only [List.length_map, hlen, smul_eq_mul]

/-- Concrete instantiation of C2 at width 10 (grid height 5). -/
theorem claim_C2_witness :
    (asciiLines ⟨"out", { width := 10 }, NORMAL_SET, (0, 0, 0), (0, 255, 0), 5, 1920, 1080⟩
        [[(0, 0, 0)]]).length = calculate_height 10 ∧
    (frame_to_ascii ⟨"out", { width := 10 }, NORMAL_SET, (0, 0, 0), (0, 255, 0), 5, 1920, 1080⟩
        [[(0, 0, 0)]]).length = calculate_height 10 * 10 + (calculate_height 10 - 1) :=
  ⟨(claim_C2_grid_shape _ [[(0, 0, 0)]]
      (by norm_num [calculate_height, DEFAULT_CHAR_ASPECT_RATIO]; try rfl)
      (by norm_num) (by norm_num)).2.1,
   (claim_C2_grid_shape _ [[(0, 0, 0)]]
      (by norm_num [calculate_height, DEFAULT_CHAR_ASPECT_RATIO]; try rfl)
      (by norm_num) (by norm_num)).2.2.2.2⟩

/-- Claim C8 (amended): at converter construction, an unknown style string
falls back to the `normal` ramp and an unknown resolution string falls
back to `high` (1920×1080) with a logged warning; but color strings are
not validated or normalized — `hex_to_rgb` fails on a malformed color
string and that failure propagates out of construction (a raised
`ValueError`), rather than any fallback being substituted. -/
theorem claim_C8_fallbacks_amended (dir : String) (cfg : ConvertConfig) :
    (∀ e, hex_to_rgb cfg.bg_color = Except.error e →
      converter_init dir cfg = Except.error e) ∧
    (∀ bg tc, hex_to_rgb cfg.bg_color = Except.ok bg →
      hex_to_rgb cfg.text_color = Except.ok tc →
      ( ASCII_SETS.lookup cfg.style = none) →
      ( RESOLUTIONS.lookup cfg.resolution = none) →
      converter_init dir cfg =
        Except.ok ⟨dir, cfg, NORMAL_SET, bg, tc, calculate_height cfg.width,
          RESOLUTION_HIGH.1, RESOLUTION_HIGH.2⟩) := by
  constructor
  · intro e he
    simp [converter_init, he]
  · intro bg tc hbg htc hst hres
    simp [converter_init, hbg, htc, hres, ascii_set_for, hst]

/-- Concrete instantiation of C8 (amended): an unrecognized style and
resolution fall back to the `normal` ramp and 1920×1080, while a
malformed background color aborts construction with the parse error. -/
theorem claim_C8_witness :
    converter_init "out" { style := "vapor", resolution := "8k" } =
      Except.ok ⟨"out", { style := "vapor", resolution := "8k" }, NORMAL_SET, (0, 0, 0),
        (0, 255, 0), calculate_height 120, RESOLUTION_HIGH.1, RESOLUTION_HIGH.2⟩ ∧
    converter_init "out" { bg_color := "not-a-color" } =
      Except.error "invalid literal for int with base 16" :=
  ⟨(claim_C8_fallbacks_amended "out" { style := "vapor", resolution := "8k" }).2
      (0, 0, 0) (0, 255, 0) (by rfl) (by rfl) (by rfl) (by rfl),
   (claim_C8_fallbacks_amended "out" { bg_color := "not-a-color" }).1
      "invalid literal for int with base 16" (by rfl)⟩

/-- Counterexample to C8 as stated: converter construction is not total on
malformed color strings — with `bg_color = "#GGGGGG"` the constructor
fails (raises) instead of normalizing the color to a documented default. -/
theorem claim_C8_counterexample :
    (converter_init "out" { bg_color := "#GGGGGG" }).toOption = none := rfl

/-! ## Claim theorems (glyph mapping and corrections) -/

/-- Claim C1: for every supported style (indeed for every style string,
thanks to the fallback), the character ramp is non-empty; for every
normalized luminance sample `s` in `[0, 1]` the glyph index computed by
`frame_to_ascii` is `floor(s * (ramp_length - 1))` — the function
`luminance_index` — which is a valid index (`idx ≤ ramp_length - 1`),
and the mapping from `s` to the index is monotone non-decreasing. -/
theorem claim_C1_ramp_and_index :
    (∀ style : String, ascii_set_for style ≠ "") ∧
    (∀ (style : String) (s : ℚ), 0 ≤ s → s ≤ 1 →
      luminance_index (ascii_set_for style) s =
        (⌊s * (((ascii_set_for style).length - 1 : Nat) : ℚ)⌋).toNat ∧
      luminance_index (ascii_set_for style) s ≤ (ascii_set_for style).length - 1) ∧
    (∀ (style : String) (s t : ℚ), 0 ≤ s → s ≤ t → t ≤ 1 →
      luminance_index (ascii_set_for style) s ≤ luminance_index (ascii_set_for style) t) := by
  refine ⟨ascii_set_for_ne_empty, ?_, ?_⟩
  · intro style s _ hs1
    exact ⟨rfl, luminance_index_le _ s hs1⟩
  · intro style s t _ hst _
    exact luminance_index_mono _ s t hst

/-- Concrete instantiation of C1: the `dots` ramp is non-empty, the glyph
index of sample 1/2 on the `normal` ramp is valid, and the index map is
monotone between the samples 1/3 and 2/3. -/
theorem claim_C1_witness :
    ascii_set_for "dots" ≠ "" ∧
    luminance_index (ascii_set_for "normal") (1/2) ≤ (ascii_set_for "normal").length - 1 ∧
    luminance_index (ascii_set_for "normal") (1/3) ≤ luminance_index (ascii_set_for "normal") (2/3) :=
  ⟨claim_C1_ramp_and_index.1 "dots",
   (claim_C1_ramp_and_index.2.1 "normal" (1/2) (by norm_num) (by norm_num)).2,
   claim_C1_ramp_and_index.2.2 "normal" (1/3) (2/3) (by norm_num) (by norm_num) (by norm_num)⟩

/-- Claim C3: with brightness = contrast = gamma = 1.0, each correction
stage returns its input unchanged (identity fast path), and
`apply_color_corrections` returns exactly the grayscale conversion of
the input frame. -/
theorem claim_C3_identity_corrections (config : ConvertConfig)
    (hb : config.brightness = 1) (hc : config.contrast = 1) (hg : config.gamma = 1) :
    (∀ img, brightness_correction config img = img) ∧
    (∀ img, contrast_correction config img = img) ∧
    (∀ img, gamma_correction config img = img) ∧
    (∀ frame, apply_color_corrections config frame = grayscale frame) := by
  refine ⟨?_, ?_, ?_, ?_⟩
  · intro img; simp [brightness_correction, hb]
  · intro img; simp [contrast_correction, hc]
  · intro img; simp [gamma_correction, hg]
  · intro frame
    simp [apply_color_corrections, brightness_correction, contrast_correction,
      gamma_correction, hb, hc, hg]

/-- Concrete instantiation of C3 at the default configuration (all three
factors are 1.0 there) on a one-pixel frame. -/
theorem claim_C3_witness :
    brightness_correction {} [[7]] = [[7]] ∧
    contrast_correction {} [[7]] = [[7]] ∧
    gamma_correction {} [[7]] = [[7]] ∧
    apply_color_corrections {} [[(1, 2, 3)]] = grayscale [[(1, 2, 3)]] :=
  ⟨(claim_C3_identity_corrections {} rfl rfl rfl).1 [[7]],
   (claim_C3_identity_corrections {} rfl rfl rfl).2.1 [[7]],
   (claim_C3_identity_corrections {} rfl rfl rfl).2.2.1 [[7]],
   (claim_C3_identity_corrections {} rfl rfl rfl).2.2.2 [[(1, 2, 3)]]⟩

/-- Entry `i` of the gamma lookup table. -/
theorem gamma_table_getD (gamma : ℚ) (i : Nat) (h : i < 256) :
    (gamma_table gamma).getD i 0 =
      uint8OfReal (255 * ((i : ℝ) / 255) ^ ((1 : ℝ) / (gamma : ℚ))) := by
  unfold gamma_table
  rw [List.getD_eq_getElem?_getD, List.getElem?_map, List.getElem?_range h]
  simp [mul_comm]

/-- Claim C4: the corrections are applied in the fixed order brightness,
then contrast, then gamma; for contrast ≠ 1.0 the contrast stage scales
each sample's deviation from the mean of its input frame (which, by the
stated composition order, is the already-brightness-corrected frame) and
clamps to `[0, 255]`; and for gamma ≠ 1.0 the gamma stage maps each
sample through the precomputed 256-entry table whose entry `i` is
`uint8(255 * (i/255) ** (1/gamma))`. -/
theorem claim_C4_correction_pipeline (config : ConvertConfig)
    (hc : config.contrast ≠ 1) (hg : config.gamma ≠ 1) :
    (∀ frame, apply_color_corrections config frame =
      gamma_correction config
        (contrast_correction config (brightness_correction config (grayscale frame)))) ∧
    (∀ img, contrast_correction config img =
      img.map (List.map fun v : Nat =>
        uint8OfRat (clip255 (((v : ℚ) - npMean img) * config.contrast + npMean img)))) ∧
    (∀ img, gamma_correction config img =
      img.map (List.map fun v => (gamma_table config.gamma).getD v 0)) ∧
    (∀ i, i < 256 → (gamma_table config.gamma).getD i 0 =
      uint8OfReal (255 * ((i : ℝ) / 255) ^ ((1 : ℝ) / (config.gamma : ℚ)))) := by
  refine ⟨fun frame => rfl, ?_, ?_, fun i hi => gamma_table_getD config.gamma i hi⟩
  · intro img; simp [contrast_correction, hc]
  · intro img; simp [gamma_correction, hg]

/-- Concrete instantiation of C4 at contrast = gamma = 2 on a one-pixel
image. -/
theorem claim_C4_witness :
    apply_color_corrections { contrast := 2, gamma := 2 } [[(1, 2, 3)]] =
      gamma_correction { contrast := 2, gamma := 2 }
        (contrast_correction { contrast := 2, gamma := 2 }
          (brightness_correction { contrast := 2, gamma := 2 }
            (grayscale [[(1, 2, 3)]]))) ∧
    (gamma_table (2 : ℚ)).getD 128 0 =
      uint8OfReal (255 * ((128 : ℝ) / 255) ^ ((1 : ℝ) / ((2 : ℚ) : ℚ))) :=
  ⟨(claim_C4_correction_pipeline { contrast := 2, gamma := 2 }
      (by norm_num) (by norm_num)).1 [[(1, 2, 3)]],
   (claim_C4_correction_pipeline { contrast := 2, gamma := 2 }
      (by norm_num) (by norm_num)).2.2.2 128 (by norm_num)⟩

/-- Claim C10: every resolution class has an even target height, and
`render_frame_png` bumps an odd canvas height up by one pixel before
saving, so a persisted frame never has an odd height. -/
theorem claim_C10_even_height :
    (∀ e ∈ RESOLUTIONS, e.2.2 % 2 = 0) ∧
    (∀ (conv : ASCIIConverter) (t : String) (n : Nat),
      (render_frame_png conv t n).height % 2 = 0) ∧
    (∀ (conv : ASCIIConverter) (t : String) (n : Nat),
      conv.out_height % 2 = 1 → (render_frame_png conv t n).height = conv.out_height + 1) := by
  refine ⟨by decide, ?_, ?_⟩
  · intro conv t n
    dsimp only [render_frame_png]
    split <;> omega
  · intro conv t n h
    dsimp only [render_frame_png]
    split <;> omega

/-- Concrete instantiation of C10 on a converter whose canvas height is
odd (99): the persisted height is 100. -/
theorem claim_C10_witness :
    (render_frame_png ⟨"o", {}, "", (0, 0, 0), (0, 0, 0), 5, 100, 99⟩ "x" 0).height = 99 + 1 :=
  claim_C10_even_height.2.2 ⟨"o", {}, "", (0, 0, 0), (0, 0, 0), 5, 100, 99⟩ "x" 0 (by norm_num)

end VidApi
